import Mathlib

/-!
Verification of the Student Report Extractor backend
(`backend/extractor.py`, `backend/main.py`) against its design
specification.

The Python code is shallowly embedded: the Gemini extractor's
`extract_bytes` method and its heuristic `_extract_field` helper become
pure Lean functions, and the FastAPI route handler `extract_text`
becomes a pure function returning an HTTP-level response together with
the number of times the gateway was invoked.  External collaborators
(the PIL image decoder, the Gemini model call, and Python's
`json.loads`) are passed in as function parameters: the embedding
quantifies over all their possible behaviours.
-/

namespace ShuleAssist

/-- JSON values, the domain of Python's `json.loads` result. -/
inductive Json where
  | null : Json
  | bool (b : Bool) : Json
  | num (n : Int) : Json
  | str (s : String) : Json
  | arr (xs : List Json) : Json
  | obj (kvs : List (String × Json)) : Json

/-- Look up a key in a JSON object (first binding wins). -/
def Json.get (j : Json) (key : String) : Option Json :=
  match j with
  | .obj kvs => (kvs.find? (fun kv => kv.1 == key)).map (fun kv => kv.2)
  | _ => none

/-- The result dictionaries produced by `extract_bytes`:
`{"type": "success", "data": ...}` or `{"type": "error", "error": ...}`. -/
inductive ExtractionResult where
  | success (data : Json) : ExtractionResult
  | error (msg : String) : ExtractionResult

/-- Whether the character list starts with the given pattern. -/
def charsStartWith : List Char → List Char → Bool
  | _, [] => true
  | [], _ :: _ => false
  | a :: as, b :: bs => a == b && charsStartWith as bs

/-- Whether the pattern occurs as a contiguous sublist. -/
def charsContain (s pat : List Char) : Bool :=
  match s with
  | [] => charsStartWith [] pat
  | _ :: rest => charsStartWith s pat || charsContain rest pat

/-- Python's `pat in s` substring test (the empty pattern always occurs). -/
def containsSub (s pat : String) : Bool :=
  charsContain s.data pat.data

/-- Python's `s.startswith(p)`. -/
def pyStartsWith (s p : String) : Bool :=
  charsStartWith s.data p.data

/-- ASCII whitespace characters stripped by Python's `str.strip()`. -/
def isPyWhitespace (c : Char) : Bool :=
  c == ' ' || c == '\t' || c == '\n' || c == '\r' ||
  c == Char.ofNat 11 || c == Char.ofNat 12

/-- Python's `str.strip()` (ASCII whitespace). -/
def pyStrip (s : String) : String :=
  String.mk (((s.data.dropWhile isPyWhitespace).reverse.dropWhile isPyWhitespace).reverse)

/-- Python's `str.lower()` (ASCII case folding). -/
def pyLower (s : String) : String :=
  String.mk (s.data.map Char.toLower)

/-- Split a character list on the newline character, as Python's
`text.split(chr(10))` does: `n` separators yield `n + 1` pieces. -/
def splitNl : List Char → List (List Char)
  | [] => [[]]
  | c :: cs =>
    let rest := splitNl cs
    if c == '\n' then [] :: rest
    else
      match rest with
      | line :: more => (c :: line) :: more
      | [] => [[c]]

/-- Python's `text.split(chr(10))` on strings. -/
def pySplitLines (s : String) : List String :=
  (splitNl s.data).map String.mk

/-- `GeminiExtractor._extract_field(text, *keywords)`: walk the keywords
in order; for the first keyword occurring in the lowercased text, return
the first line (split on the newline character) containing it,
case-insensitively, stripped; if a keyword occurs in the text but in no
single line, Python falls through to the next keyword; if no keyword
matches, return the empty string. -/
def extract_field (text : String) : List String → String
  | [] => ""
  | keyword :: rest =>
    if containsSub (pyLower text) keyword then
      match (pySplitLines text).find? (fun line => containsSub (pyLower line) keyword) with
      | some line => pyStrip line
      | none => extract_field text rest
    else
      extract_field text rest

/-- The fallback dictionary built in `extract_bytes` when `json.loads`
raises on the model output. -/
def fallbackData (extracted_text : String) : Json :=
  Json.obj [
    ("student_name", .str (extract_field extracted_text ["student", "name"])),
    ("grade_level", .str (extract_field extracted_text ["grade"])),
    ("report_year", .str (extract_field extracted_text ["year"])),
    ("general_comments", .str (extract_field extracted_text ["comments"])),
    ("subjects", .arr []),
    ("raw_text", .str extracted_text)
  ]

/-- The fixed instruction prompt built inside `extract_bytes`. -/
def extractionPrompt : String :=
  "Extract information from this student report image. Please provide:\n" ++
  "1. Student name\n2. Grade level\n3. Report year\n" ++
  "4. General comments (if any)\n5. Subject grades and teacher comments (if available)\n" ++
  "Format the response as JSON with these fields:\n" ++
  "- student_name: string\n- grade_level: string\n- report_year: string\n" ++
  "- general_comments: string\n- subjects: array of objects with name, grade, teacher_comment\n" ++
  "- raw_text: the full extracted text\n" ++
  "If information is not available, use empty strings or empty arrays."

/-- `GeminiExtractor.extract_bytes(image_bytes)`.

Parameters model the external collaborators:
* `available` — the `_available` flag set at construction;
* `decode : List Nat → Except String α` — `Image.open(BytesIO(image_bytes))`;
  an `Except.error e` is a raised exception with message `e`, caught by the
  outermost `except` clause;
* `generate : String → α → Except String String` — `model.generate_content`
  followed by `response.text` on the prompt and the decoded image; an
  `Except.error e` is caught by the inner `except` clause and returned
  as `{"type": "error", "error": str(e)}`;
* `jsonLoads : String → Option Json` — `json.loads`; `none` means the
  parse raised, which the bare `except Exception` turns into the
  heuristic fallback. -/
def extract_bytes {α : Type} (available : Bool)
    (decode : List Nat → Except String α)
    (generate : String → α → Except String String)
    (jsonLoads : String → Option Json)
    (image_bytes : List Nat) : ExtractionResult :=
  if !available then
    .error "Gemini API not available"
  else
    match decode image_bytes with
    | .error e => .error ("Extraction failed: " ++ e)
    | .ok image =>
      match generate extractionPrompt image with
      | .error e => .error e
      | .ok rawText =>
        let extracted_text := pyStrip rawText
        match jsonLoads extracted_text with
        | some data => .success data
        | none => .success (fallbackData extracted_text)

/-- The canonical `ExtractedFields` shape: a JSON object whose keys are
exactly the six documented ones, with string values for the four scalar
fields and for `raw_text`, and an array of `{name, grade, teacher_comment}`
string triples for `subjects`. -/
def isSubjectEntry : Json → Bool
  | .obj [("name", .str _), ("grade", .str _), ("teacher_comment", .str _)] => true
  | _ => false

/-- Whether a JSON value matches the `ExtractedFields` schema. -/
def matchesExtractedFieldsSchema : Json → Bool
  | .obj [("student_name", .str _), ("grade_level", .str _),
          ("report_year", .str _), ("general_comments", .str _),
          ("subjects", .arr subs), ("raw_text", .str _)] =>
      subs.all isSubjectEntry
  | _ => false

/-- A multipart upload as seen by the route handler: the declared
content type and the byte content produced by `await image.read()`. -/
structure Upload where
  content_type : String
  content : List Nat

/-- The HTTP-level outcome of the route handler: either a 200 JSON body
or an `HTTPException(status_code, detail)`. -/
inductive HandlerResponse where
  | ok (body : Json) : HandlerResponse
  | httpError (status : Nat) (detail : String) : HandlerResponse

/-- The `POST /api/extract` handler `extract_text` in `backend/main.py`.

Returns the response paired with the number of times the gateway's
`extract_bytes` was invoked.  `readUpload` models `await image.read()`
(`Except.error` is a raised exception caught by the handler's
`except Exception` clause); `strOfHTTPExc` models Python's `str(e)` on an
`HTTPException` re-caught by that same clause, since the 500 raised for a
gateway `Failure` happens inside the `try` block and is re-wrapped. -/
def extract_text_route {α : Type} (available : Bool)
    (decode : List Nat → Except String α)
    (generate : String → α → Except String String)
    (jsonLoads : String → Option Json)
    (readUpload : Upload → Except String (List Nat))
    (strOfHTTPExc : Nat → String → String)
    (image : Upload) : HandlerResponse × Nat :=
  if !(pyStartsWith image.content_type "image/") then
    (.httpError 400 "File must be an image", 0)
  else
    match readUpload image with
    | .error e => (.httpError 500 e, 0)
    | .ok content =>
      match extract_bytes available decode generate jsonLoads content with
      | .success data =>
          (.ok (Json.obj [("success", .bool true), ("data", data)]), 1)
      | .error msg =>
          (.httpError 500 (strOfHTTPExc 500 msg), 1)

/-! ## Claim theorems -/

/-- C1: for every model output text that is not valid JSON (json.loads
raises), extract_bytes on a decodable image with the gateway available
returns Success built by the heuristic fallback, whose `subjects` field
is the empty array and whose `raw_text` field is exactly the stripped
model output text used to derive the other fields. -/
theorem C1_nonjson_success {α : Type}
    (decode : List Nat → Except String α)
    (generate : String → α → Except String String)
    (jsonLoads : String → Option Json)
    (bytes : List Nat) (image : α) (text : String)
    (hdec : decode bytes = Except.ok image)
    (hgen : generate extractionPrompt image = Except.ok text)
    (hjson : jsonLoads (pyStrip text) = none) :
    extract_bytes true decode generate jsonLoads bytes
      = ExtractionResult.success (fallbackData (pyStrip text))
    ∧ (fallbackData (pyStrip text)).get "subjects" = some (Json.arr [])
    ∧ (fallbackData (pyStrip text)).get "raw_text" = some (Json.str (pyStrip text)) := by
  refine ⟨?_, rfl, rfl⟩
  simp [extract_bytes, hdec, hgen, hjson]

/-- Witness for C1 at a concrete non-JSON model output. -/
theorem C1_nonjson_success_witness :
    extract_bytes true (fun _ : List Nat => Except.ok ())
        (fun _ _ => Except.ok "Report card") (fun _ => none) [7]
      = ExtractionResult.success (fallbackData "Report card")
    ∧ (fallbackData "Report card").get "subjects" = some (Json.arr [])
    ∧ (fallbackData "Report card").get "raw_text" = some (Json.str "Report card") :=
  C1_nonjson_success (fun _ : List Nat => Except.ok ())
    (fun _ _ => Except.ok "Report card") (fun _ => none) [7] () "Report card"
    rfl rfl rfl

/-- C2: for every model output text that json.loads parses into a value
matching the ExtractedFields schema, extract_bytes with the gateway
available and a decodable image returns Success carrying exactly the
parsed value: no heuristic fallback is applied. -/
theorem C2_json_passthrough {α : Type}
    (decode : List Nat → Except String α)
    (generate : String → α → Except String String)
    (jsonLoads : String → Option Json)
    (bytes : List Nat) (image : α) (text : String) (v : Json)
    (hdec : decode bytes = Except.ok image)
    (hgen : generate extractionPrompt image = Except.ok text)
    (hjson : jsonLoads (pyStrip text) = some v)
    (_hschema : matchesExtractedFieldsSchema v = true) :
    extract_bytes true decode generate jsonLoads bytes
      = ExtractionResult.success v := by
  simp [extract_bytes, hdec, hgen, hjson]

/-- A concrete schema-conforming ExtractedFields value. -/
def sampleFields : Json :=
  Json.obj [("student_name", .str "Jane Doe"), ("grade_level", .str "5"),
            ("report_year", .str "2024"), ("general_comments", .str "Good work"),
            ("subjects", .arr [Json.obj [("name", .str "Math"), ("grade", .str "A"),
                                         ("teacher_comment", .str "Strong")]]),
            ("raw_text", .str "Jane Doe Grade 5")]

/-- Witness for C2 at a concrete schema-matching parse result. -/
theorem C2_json_passthrough_witness :
    extract_bytes true (fun _ : List Nat => Except.ok ())
        (fun _ _ => Except.ok "some model output") (fun _ => some sampleFields) [3]
      = ExtractionResult.success sampleFields :=
  C2_json_passthrough (fun _ : List Nat => Except.ok ())
    (fun _ _ => Except.ok "some model output") (fun _ => some sampleFields)
    [3] () "some model output" sampleFields rfl rfl rfl (by decide)

/-- C3 counterexample: with the gateway unavailable, extract_bytes
returns Failure with the message "Gemini API not available", which is
not the message "model not available" stated by the claim. -/
theorem C3_counterexample :
    extract_bytes false (fun _ : List Nat => (Except.ok () : Except String Unit))
        (fun _ _ => Except.ok "") (fun _ => none) []
      = ExtractionResult.error "Gemini API not available"
    ∧ extract_bytes false (fun _ : List Nat => (Except.ok () : Except String Unit))
        (fun _ _ => Except.ok "") (fun _ => none) []
      ≠ ExtractionResult.error "model not available" := by
  refine ⟨rfl, ?_⟩
  intro h
  have h2 : ExtractionResult.error "Gemini API not available"
      = ExtractionResult.error "model not available" := h
  injection h2 with h3
  exact absurd h3 (by decide)

/-- C3 amended: for every byte buffer, when the gateway is unavailable,
extract_bytes immediately returns Failure with message
"Gemini API not available"; the result is the same for every decode
function and every model, so the image is never decoded and the model is
never called. -/
theorem C3_unavailable_shortcircuit {α : Type}
    (decode : List Nat → Except String α)
    (generate : String → α → Except String String)
    (jsonLoads : String → Option Json)
    (bytes : List Nat) :
    extract_bytes false decode generate jsonLoads bytes
      = ExtractionResult.error "Gemini API not available" := rfl

/-- C4 counterexample: on undecodable bytes the Failure message is the
catch-all "Extraction failed: <decode exception detail>", not the
message "invalid or corrupt image" stated by the claim. -/
theorem C4_counterexample :
    extract_bytes true
        (fun _ : List Nat => (Except.error "cannot identify image file" : Except String Unit))
        (fun _ _ => Except.ok "") (fun _ => none) [0]
      = ExtractionResult.error "Extraction failed: cannot identify image file"
    ∧ extract_bytes true
        (fun _ : List Nat => (Except.error "cannot identify image file" : Except String Unit))
        (fun _ _ => Except.ok "") (fun _ => none) [0]
      ≠ ExtractionResult.error "invalid or corrupt image" := by
  refine ⟨rfl, ?_⟩
  intro h
  have h2 : ExtractionResult.error "Extraction failed: cannot identify image file"
      = ExtractionResult.error "invalid or corrupt image" := h
  injection h2 with h3
  exact absurd h3 (by decide)

/-- C4 amended: for every byte buffer whose decode raises, with the
gateway available, extract_bytes returns Failure with message
"Extraction failed: " followed by the decode exception detail; the
result is the same for every model function, so the model is never
called. -/
theorem C4_decode_failure {α : Type}
    (decode : List Nat → Except String α)
    (generate : String → α → Except String String)
    (jsonLoads : String → Option Json)
    (bytes : List Nat) (e : String)
    (hdec : decode bytes = Except.error e) :
    extract_bytes true decode generate jsonLoads bytes
      = ExtractionResult.error ("Extraction failed: " ++ e) := by
  simp [extract_bytes, hdec]

/-- Witness for C4 amended at a concrete failing decode. -/
theorem C4_decode_failure_witness :
    extract_bytes true
        (fun _ : List Nat => (Except.error "truncated file" : Except String Unit))
        (fun _ _ => Except.ok "") (fun _ => none) [9]
      = ExtractionResult.error ("Extraction failed: " ++ "truncated file") :=
  C4_decode_failure
    (fun _ : List Nat => (Except.error "truncated file" : Except String Unit))
    (fun _ _ => Except.ok "") (fun _ => none) [9] "truncated file" rfl

/-- C5 counterexample: the text "students" newline "Student Name: Jane
Doe" contains the line "Student Name: Jane Doe", yet the heuristic
student_name value is "students" (the first line containing the keyword
"student"), not the trimmed content of that line. -/
theorem C5_counterexample :
    "Student Name: Jane Doe" ∈ pySplitLines "students\nStudent Name: Jane Doe"
    ∧ extract_field "students\nStudent Name: Jane Doe" ["student", "name"] = "students"
    ∧ extract_field "students\nStudent Name: Jane Doe" ["student", "name"]
        ≠ pyStrip "Student Name: Jane Doe" := by
  refine ⟨by decide, by decide, by decide⟩

/-- C5 amended: each scalar field tries its keywords in order with a
case-insensitive substring match against the lowercased text.  For the
three single-keyword fields (keyword list [kw]): if the keyword occurs
nowhere the field is the empty string, otherwise the first line
containing it, stripped, becomes the value.  For student_name (keyword
list ["student", "name"]): when "student" occurs, the value is the
stripped first line containing "student"; when "student" is absent but
"name" occurs, the value is the stripped first line containing "name";
when neither occurs, the value is the empty string.  A text containing
the line "Student Name: Jane Doe" yields exactly that line as
student_name whenever it is the first line containing the selected
keyword "student". -/
theorem C5_keyword_line_scan (text kw line : String) :
    (containsSub (pyLower text) kw = false → extract_field text [kw] = "")
    ∧ (containsSub (pyLower text) kw = true →
        (pySplitLines text).find? (fun l => containsSub (pyLower l) kw) = some line →
        extract_field text [kw] = pyStrip line)
    ∧ (containsSub (pyLower text) "student" = true →
        (pySplitLines text).find? (fun l => containsSub (pyLower l) "student") = some line →
        extract_field text ["student", "name"] = pyStrip line)
    ∧ (containsSub (pyLower text) "student" = false →
        containsSub (pyLower text) "name" = true →
        (pySplitLines text).find? (fun l => containsSub (pyLower l) "name") = some line →
        extract_field text ["student", "name"] = pyStrip line)
    ∧ (containsSub (pyLower text) "student" = false →
        containsSub (pyLower text) "name" = false →
        extract_field text ["student", "name"] = "")
    ∧ (containsSub (pyLower text) "student" = true →
        (pySplitLines text).find? (fun l => containsSub (pyLower l) "student")
          = some "Student Name: Jane Doe" →
        extract_field text ["student", "name"] = "Student Name: Jane Doe") := by
  have hstudent : ∀ l : String, containsSub (pyLower text) "student" = true →
      (pySplitLines text).find? (fun x => containsSub (pyLower x) "student") = some l →
      extract_field text ["student", "name"] = pyStrip l := by
    intro l h hf
    simp [extract_field, h, hf]
  refine ⟨?_, ?_, hstudent line, ?_, ?_, ?_⟩
  · intro h
    simp [extract_field, h]
  · intro h hf
    simp [extract_field, h, hf]
  · intro h1 h2 hf
    simp [extract_field, h1, h2, hf]
  · intro h1 h2
    simp [extract_field, h1, h2]
  · intro h hf
    exact hstudent "Student Name: Jane Doe" h hf

/-- Witness for C5 amended, exercising a single-keyword field, the
fallback to the keyword "name" when "student" is absent, and the
Jane Doe line selected from a multi-line text. -/
theorem C5_keyword_line_scan_witness :
    extract_field "Grade: 7" ["grade"] = pyStrip "Grade: 7"
    ∧ extract_field "Name: Jane" ["student", "name"] = pyStrip "Name: Jane"
    ∧ extract_field "Header\nStudent Name: Jane Doe" ["student", "name"]
        = "Student Name: Jane Doe" :=
  ⟨(C5_keyword_line_scan "Grade: 7" "grade" "Grade: 7").2.1 (by decide) (by decide),
   (C5_keyword_line_scan "Name: Jane" "x" "Name: Jane").2.2.2.1
     (by decide) (by decide) (by decide),
   (C5_keyword_line_scan "Header\nStudent Name: Jane Doe" "x" "x").2.2.2.2.2
     (by decide) (by decide)⟩

/-- C6 counterexample: the catch-all Failure message begins with
"Extraction failed: " (capital E), not "extraction failed: " as the
claim states. -/
theorem C6_counterexample :
    extract_bytes true (fun _ : List Nat => (Except.error "boom" : Except String Unit))
        (fun _ _ => Except.ok "") (fun _ => none) []
      = ExtractionResult.error ("Extraction failed: " ++ "boom")
    ∧ extract_bytes true (fun _ : List Nat => (Except.error "boom" : Except String Unit))
        (fun _ _ => Except.ok "") (fun _ => none) []
      ≠ ExtractionResult.error ("extraction failed: " ++ "boom") := by
  refine ⟨rfl, ?_⟩
  intro h
  have h2 : ExtractionResult.error "Extraction failed: boom"
      = ExtractionResult.error "extraction failed: boom" := h
  injection h2 with h3
  exact absurd h3 (by decide)

/-- C6 amended: for every input and every behaviour of the external
collaborators, extract_bytes terminates in a well-formed two-variant
ExtractionResult, and any otherwise-uncovered failure (a raised decode
exception) is returned as Failure with message
"Extraction failed: <detail>" (capital E). -/
theorem C6_total_result {α : Type} (available : Bool)
    (decode : List Nat → Except String α)
    (generate : String → α → Except String String)
    (jsonLoads : String → Option Json)
    (bytes : List Nat) :
    ((∃ d, extract_bytes available decode generate jsonLoads bytes
        = ExtractionResult.success d)
      ∨ (∃ m, extract_bytes available decode generate jsonLoads bytes
        = ExtractionResult.error m))
    ∧ (∀ e, decode bytes = Except.error e → available = true →
        extract_bytes available decode generate jsonLoads bytes
          = ExtractionResult.error ("Extraction failed: " ++ e)) := by
  constructor
  · cases h : extract_bytes available decode generate jsonLoads bytes with
    | success d => exact Or.inl ⟨d, rfl⟩
    | error m => exact Or.inr ⟨m, rfl⟩
  · intro e hdec ha
    subst ha
    simp [extract_bytes, hdec]

/-- Witness for C6 amended at a concrete raised decode exception. -/
theorem C6_total_result_witness :
    extract_bytes true (fun _ : List Nat => (Except.error "oops" : Except String Unit))
        (fun _ _ => Except.ok "") (fun _ => none) [1]
      = ExtractionResult.error ("Extraction failed: " ++ "oops") :=
  (C6_total_result true (fun _ : List Nat => (Except.error "oops" : Except String Unit))
    (fun _ _ => Except.ok "") (fun _ => none) [1]).2 "oops" rfl rfl

/-- C7: once the model call has succeeded, extract_bytes returns
Success for every possible json.loads behaviour: malformed model output
takes the heuristic fallback rather than producing a Failure. -/
theorem C7_model_ok_success {α : Type}
    (decode : List Nat → Except String α)
    (generate : String → α → Except String String)
    (jsonLoads : String → Option Json)
    (bytes : List Nat) (image : α) (text : String)
    (hdec : decode bytes = Except.ok image)
    (hgen : generate extractionPrompt image = Except.ok text) :
    ∃ d, extract_bytes true decode generate jsonLoads bytes
      = ExtractionResult.success d := by
  cases hj : jsonLoads (pyStrip text) with
  | none => exact ⟨fallbackData (pyStrip text), by simp [extract_bytes, hdec, hgen, hj]⟩
  | some v => exact ⟨v, by simp [extract_bytes, hdec, hgen, hj]⟩

/-- Witness for C7 at a concrete failing JSON parse. -/
theorem C7_model_ok_success_witness :
    ∃ d, extract_bytes true (fun _ : List Nat => Except.ok ())
        (fun _ _ => Except.ok "not json at all") (fun _ => none) [2]
      = ExtractionResult.success d :=
  C7_model_ok_success (fun _ : List Nat => Except.ok ())
    (fun _ _ => Except.ok "not json at all") (fun _ => none) [2] ()
    "not json at all" rfl rfl

/-- C8: for every upload whose declared content type does not begin
with "image/", the POST /api/extract handler returns the 400 client
error "File must be an image" and the gateway call count is zero. -/
theorem C8_nonimage_rejected {α : Type} (available : Bool)
    (decode : List Nat → Except String α)
    (generate : String → α → Except String String)
    (jsonLoads : String → Option Json)
    (readUpload : Upload → Except String (List Nat))
    (strOfHTTPExc : Nat → String → String)
    (upload : Upload)
    (h : pyStartsWith upload.content_type "image/" = false) :
    extract_text_route available decode generate jsonLoads readUpload strOfHTTPExc upload
      = (HandlerResponse.httpError 400 "File must be an image", 0) := by
  simp [extract_text_route, h]

/-- Witness for C8 at a concrete text/plain upload. -/
theorem C8_nonimage_rejected_witness :
    extract_text_route true (fun _ : List Nat => (Except.ok () : Except String Unit))
        (fun _ _ => Except.ok "") (fun _ => none)
        (fun u => Except.ok u.content) (fun n m => toString n ++ ": " ++ m)
        (Upload.mk "text/plain" [1, 2, 3])
      = (HandlerResponse.httpError 400 "File must be an image", 0) :=
  C8_nonimage_rejected true (fun _ : List Nat => (Except.ok () : Except String Unit))
    (fun _ _ => Except.ok "") (fun _ => none)
    (fun u => Except.ok u.content) (fun n m => toString n ++ ": " ++ m)
    (Upload.mk "text/plain" [1, 2, 3]) (by decide)

/-- C9: the JSON branch performs no schema validation: whenever
json.loads returns any value at all, that value, whatever its type,
becomes the Success data unchanged, and the heuristic fallback runs
exactly when the parse raises. -/
theorem C9_no_schema_validation {α : Type}
    (decode : List Nat → Except String α)
    (generate : String → α → Except String String)
    (bytes : List Nat) (image : α) (text : String)
    (hdec : decode bytes = Except.ok image)
    (hgen : generate extractionPrompt image = Except.ok text) :
    (∀ jsonLoads v, jsonLoads (pyStrip text) = some v →
        extract_bytes true decode generate jsonLoads bytes
          = ExtractionResult.success v)
    ∧ (∀ jsonLoads, jsonLoads (pyStrip text) = none →
        extract_bytes true decode generate jsonLoads bytes
          = ExtractionResult.success (fallbackData (pyStrip text))) := by
  constructor
  · intro jsonLoads v hj
    simp [extract_bytes, hdec, hgen, hj]
  · intro jsonLoads hj
    simp [extract_bytes, hdec, hgen, hj]

/-- Witness for C9: a bare number parse result is passed through
unchanged, with no object shape required. -/
theorem C9_no_schema_validation_witness :
    extract_bytes true (fun _ : List Nat => Except.ok ())
        (fun _ _ => Except.ok "5") (fun _ => some (Json.num 5)) [4]
      = ExtractionResult.success (Json.num 5) :=
  (C9_no_schema_validation (fun _ : List Nat => Except.ok ())
    (fun _ _ => Except.ok "5") [4] () "5" rfl rfl).1
    (fun _ => some (Json.num 5)) (Json.num 5) rfl

/-- C10: extract_field commits to the first keyword of the argument
list that occurs anywhere in the lowercased text and returns the first
line containing that keyword; with keywords ["student", "name"], when
"student" occurs the result is the first line containing "student",
even when an earlier line contains "name" but not "student", as the
concrete conjuncts show. -/
theorem C10_keyword_priority (text line : String)
    (h1 : containsSub (pyLower text) "student" = true)
    (h2 : (pySplitLines text).find? (fun l => containsSub (pyLower l) "student")
      = some line) :
    extract_field text ["student", "name"] = pyStrip line
    ∧ extract_field "name: Alice\nstudent: Bob" ["student", "name"] = "student: Bob"
    ∧ containsSub (pyLower "name: Alice") "name" = true
    ∧ containsSub (pyLower "name: Alice") "student" = false := by
  refine ⟨?_, by decide, by decide, by decide⟩
  simp [extract_field, h1, h2]

/-- Witness for C10 at a concrete text in which an earlier line matches
"name" only. -/
theorem C10_keyword_priority_witness :
    extract_field "name: Alice\nstudent: Bob" ["student", "name"] = pyStrip "student: Bob" :=
  (C10_keyword_priority "name: Alice\nstudent: Bob" "student: Bob"
    (by decide) (by decide)).1

end ShuleAssist
